import Mathlib

/-!
Verification of the travel-search assistant backend/frontend
(`deep-1405/travel-final-modular`) against its natural-language
specification.

The Python source is shallowly embedded: every dict-shaped request is a
record or an association list of `PyValue`s, every network interaction is
an explicit oracle argument (the provider's response is passed in), and
the network calls an operation performs are returned as an explicit trace
(`NetCall` list).  Python truthiness of strings is modelled by comparison
with `""` (the embedding conflates `None` with the empty string for
string-valued fields, which is exactly the distinction the source code
never makes: it only ever tests truthiness of those fields).
-/

namespace Travel

/-! ## Python-style primitives -/

/-- Python `str.strip()` (whitespace trim on both ends). -/
def pyStrip (s : String) : String :=
  ⟨((s.data.dropWhile Char.isWhitespace).reverse.dropWhile Char.isWhitespace).reverse⟩

/-- Python list indexing `l[i]`: negative indices count from the end;
`none` models an uncaught `IndexError`. -/
def pyGet {α : Type} (l : List α) (i : Int) : Option α :=
  let j : Int := if i < 0 then (l.length : Int) + i else i
  if 0 ≤ j then l.get? j.toNat else none

/-- A Python scalar value as it appears in the request dictionaries of the
flights router: a string, an int, or a float (modelled as an exact
rational; `is_integer` is then the denominator-one test). -/
inductive PyValue : Type
  | s (v : String)
  | i (v : Int)
  | f (v : ℚ)
  deriving DecidableEq

/-- Python truthiness of a scalar value. -/
def PyValue.truthy : PyValue → Bool
  | .s v => v ≠ ""
  | .i v => v ≠ 0
  | .f v => v ≠ 0

/-- A Python dict with string keys, as an association list. -/
abbrev PyDict : Type := List (String × PyValue)

/-- Python `d.get(k)` / `d[k]` lookup. -/
def dget : PyDict → String → Option PyValue
  | [], _ => none
  | kv :: rest, k => if kv.1 = k then some kv.2 else dget rest k

/-- Python `d[k] = v`: replace the binding if the key is present,
otherwise append it. -/
def dset : PyDict → String → PyValue → PyDict
  | [], k, v => [(k, v)]
  | kv :: rest, k, v => if kv.1 = k then (k, v) :: rest else kv :: dset rest k v

/-- Python `a | b` dict merge: keys of `a` first (with `b`'s value when the
key is in both), then the keys only `b` has. -/
def dmerge (a b : PyDict) : PyDict :=
  (a.map (fun kv => match dget b kv.1 with
    | some v => (kv.1, v)
    | none => kv))
  ++ b.filter (fun kv => (dget a kv.1).isNone)

/-- Truthiness of an optional lookup result (`d.get(k)` on a missing key
yields `None`, which is falsy). -/
def otruthy : Option PyValue → Bool
  | none => false
  | some v => v.truthy

theorem dget_dset_self (d : PyDict) (k : String) (v : PyValue) :
    dget (dset d k v) k = some v := by
  induction d with
  | nil => simp [dset, dget]
  | cons kv rest ih =>
      by_cases h : kv.1 = k
      · simp [dset, dget, h]
      · simp [dset, dget, h, ih]

theorem dget_dset_ne (d : PyDict) (k k' : String) (v : PyValue) (h : k' ≠ k) :
    dget (dset d k v) k' = dget d k' := by
  induction d with
  | nil => simp [dset, dget, Ne.symm h]
  | cons kv rest ih =>
      by_cases hk : kv.1 = k
      · subst hk
        simp [dset, dget, Ne.symm h]
      · by_cases hk' : kv.1 = k'
        · simp [dset, dget, hk, hk', h]
        · simp [dset, dget, hk, hk', ih]

theorem dget_append (a b : PyDict) (k : String) :
    dget (a ++ b) k = ((dget a k).rec (dget b k) (fun v => some v)) := by
  induction a with
  | nil => simp [dget]
  | cons kv rest ih =>
      by_cases h : kv.1 = k
      · simp [dget, h]
      · simp [dget, h, ih]

theorem dget_eq_none_of_no_key (a : PyDict) (k : String)
    (h : ∀ kv ∈ a, kv.1 ≠ k) : dget a k = none := by
  induction a with
  | nil => simp [dget]
  | cons kv rest ih =>
      have hk : kv.1 ≠ k := h kv (by simp)
      simp only [dget, hk, if_false]
      exact ih (fun kv' hkv' => h kv' (by simp [hkv']))

theorem dget_filter (b : PyDict) (p : String × PyValue → Bool) (k : String)
    (h : ∀ kv : String × PyValue, kv.1 = k → p kv = true) :
    dget (b.filter p) k = dget b k := by
  induction b with
  | nil => simp [dget]
  | cons kv rest ih =>
      by_cases hk : kv.1 = k
      · have := h kv hk
        simp [List.filter, this, dget, hk]
      · by_cases hp : p kv
        · simp [List.filter, hp, dget, hk, ih]
        · simp only [List.filter, hp, dget, hk, if_false]
          exact ih

theorem dget_dmerge_of_no_key (a b : PyDict) (k : String)
    (h : ∀ kv ∈ a, kv.1 ≠ k) : dget (dmerge a b) k = dget b k := by
  unfold dmerge
  rw [dget_append]
  have hmap : dget (a.map (fun kv => match dget b kv.1 with
      | some v => (kv.1, v)
      | none => kv)) k = none := by
    apply dget_eq_none_of_no_key
    intro kv hkv
    rcases List.mem_map.mp hkv with ⟨kv', hkv', rfl⟩
    have hne := h kv' hkv'
    cases hv : dget b kv'.1 <;> simpa [hv] using hne
  rw [hmap]
  have hA : dget a k = none := dget_eq_none_of_no_key a k h
  exact dget_filter b _ k (fun kv hkv => by simp [hkv, hA])

/-! ## OAuth2 client-credentials token cache
(`backend/utils.py` lines 12–13 and 44–72; an identical copy lives in
`backend/routers/airports.py` lines 13–14 and 16–44). -/

/-- The JSON body of a successful token exchange. -/
structure TokenResponse : Type where
  access_token : String
  expires_in : ℚ
  deriving DecidableEq

/-- One module-level cache: `_access_token` (with `""` modelling the falsy
initial `None`) and `_token_expiry` (initially `0`). -/
structure TokenCache : Type where
  token : String
  expiry : ℚ
  deriving DecidableEq

/-- The initial module state: `_access_token = None`, `_token_expiry = 0`. -/
def TokenCache.init : TokenCache := ⟨"", 0⟩

/-- Amadeus credentials from the environment (`""` models an unset
variable, which is falsy). -/
structure AmadeusEnv : Type where
  client_id : String
  client_secret : String
  deriving DecidableEq

inductive TokenResult : Type
  | ok (token : String)
  | credentialsError
  deriving DecidableEq

/-- Result of one call to `get_access_token`: the returned value, the
cache after the call, and whether a network token exchange was made. -/
structure TokenStep : Type where
  result : TokenResult
  cache : TokenCache
  networkCall : Bool
  deriving DecidableEq

/-- `get_access_token` (`backend/utils.py` 44–72, and verbatim duplicate in
`backend/routers/airports.py` 16–44).  `now` is `time.time()` at the cache
check, `issue` is `time.time()` right after the exchange (the issuance
time), `fresh` the provider's token response. -/
def get_access_token (env : AmadeusEnv) (st : TokenCache) (now : ℚ)
    (fresh : TokenResponse) (issue : ℚ) : TokenStep :=
  if st.token ≠ "" ∧ now < st.expiry then
    ⟨.ok st.token, st, false⟩
  else if env.client_id = "" ∨ env.client_secret = "" then
    ⟨.credentialsError, st, false⟩
  else
    ⟨.ok fresh.access_token,
     ⟨fresh.access_token, issue + fresh.expires_in - 10⟩, true⟩

/-- The process holds two independent module-level caches: one in
`backend.utils`, one in `backend.routers.airports`. -/
structure ProcState : Type where
  utilsCache : TokenCache
  routerCache : TokenCache
  deriving DecidableEq

/-- `backend.utils.get_access_token` acting on the process state: it reads
and writes only the `backend.utils` module globals. -/
def utils_get_access_token (env : AmadeusEnv) (ps : ProcState) (now : ℚ)
    (fresh : TokenResponse) (issue : ℚ) : TokenResult × ProcState × Bool :=
  let s := get_access_token env ps.utilsCache now fresh issue
  (s.result, { ps with utilsCache := s.cache }, s.networkCall)

/-- `backend.routers.airports.get_access_token` acting on the process
state: it reads and writes only the airports-router module globals. -/
def router_get_access_token (env : AmadeusEnv) (ps : ProcState) (now : ℚ)
    (fresh : TokenResponse) (issue : ℚ) : TokenResult × ProcState × Bool :=
  let s := get_access_token env ps.routerCache now fresh issue
  (s.result, { ps with routerCache := s.cache }, s.networkCall)

/-! ## Geocoding (`backend/utils.py` 15–42) and airport lookup
(`backend/routers/airports.py` 46–101, `backend/tools/airports.py` 7–72). -/

/-- A network request issued by an operation (the trace element). -/
inductive NetCall : Type
  | geocode (address : String)
  | tokenExchange
  | airportSearch (lat lng : ℚ) (radius : Int)
  deriving DecidableEq

/-- One geocoding result's `geometry.location`. -/
structure GeoPoint : Type where
  lat : ℚ
  lng : ℚ
  deriving DecidableEq

/-- The geocoding provider's HTTP response: status code and `results`. -/
structure GeoResponse : Type where
  status : Int
  results : List GeoPoint
  deriving DecidableEq

/-- `float(format(x, ".4f"))`: the coordinate rounded to four decimal
places (ties resolved by `round`; the binary-float tie behaviour of
CPython is below the 1/20000 granularity this spec talks about). -/
def round4 (x : ℚ) : ℚ := ((round (x * 10000) : Int) : ℚ) / 10000

/-- Outcome of `fetch_geolocation` (`backend/utils.py` 15–42). -/
inductive GeoResult : Type
  | keyMissing                 -- `ValueError("Google Developer API not found")`
  | httpError (status : Int)   -- `response.raise_for_status()` raised
  | noResults                  -- `return None` (empty `results`)
  | coords (lat lng : ℚ)       -- the rounded coordinate
  deriving DecidableEq

/-- `fetch_geolocation` with its network trace.  `key` is
`GOOGLE_GEOLOCATION_API` (`""` = unset); `resp` is the provider's
response to the geocode GET. -/
def fetch_geolocation (key : String) (location : String) (resp : GeoResponse) :
    GeoResult × List NetCall :=
  if key = "" then (.keyMissing, [])
  else
    let calls := [NetCall.geocode (pyStrip location)]
    if resp.status < 200 ∨ 300 ≤ resp.status then (.httpError resp.status, calls)
    else
      match resp.results with
      | [] => (.noResults, calls)
      | c :: _ => (.coords (round4 c.lat) (round4 c.lng), calls)

/-- A vendor airport record (the claims only need that records exist). -/
structure AirportRecord : Type where
  iataCode : String
  deriving DecidableEq

/-- The Amadeus airport-search HTTP response. -/
structure AirportApiResponse : Type where
  status : Int
  data : List AirportRecord
  deriving DecidableEq

/-- Outcome of the router's `get_airport`
(`backend/routers/airports.py` 46–101).  `invalidInput` is the
`ValueError` raised before the `try` block; `geoNotFound` is the returned
`{"status": 404, "response": {...}}` value (not an exception);
`upstreamHttp` is the `HTTPException` re-raising a vendor status;
`serverError` is the generic `HTTPException(500)` produced by the
`except Exception` handler (which also swallows the airports-empty 404
raised inside the `try`). -/
inductive RouterAirportOutcome : Type
  | invalidInput (msg : String)
  | geoNotFound (status : Int) (title : String)
  | airports (records : List AirportRecord)
  | upstreamHttp (status : Int)
  | serverError (status : Int)
  deriving DecidableEq

/-- The router's `get_airport`.  The `fetch_geolocation` it imports (from
the `routers.geolocation` module, absent from src) is modelled by
`Travel.fetch_geolocation` above, which spec §4.1 describes identically.
Oracles: `geo` the geocoder's response, `tok`/`issue` the token exchange,
`api` the airport-search response. -/
def router_get_airport (gkey : String) (env : AmadeusEnv) (location : String)
    (geo : GeoResponse) (st : TokenCache) (now : ℚ) (tok : TokenResponse)
    (issue : ℚ) (api : AirportApiResponse) :
    RouterAirportOutcome × TokenCache × List NetCall :=
  if pyStrip location = "" then
    (.invalidInput "Location cannot be empty", st, [])
  else
    match fetch_geolocation gkey location geo with
    | (.keyMissing, tr) => (.serverError 500, st, tr)
    | (.httpError s, tr) => (.upstreamHttp s, st, tr)
    | (.noResults, tr) =>
        (.geoNotFound 404 ("NO GEOLOCATION DATA FOUND FOR " ++ location), st, tr)
    | (.coords lat lng, tr) =>
        let step := get_access_token env st now tok issue
        match step.result with
        | .credentialsError => (.serverError 500, step.cache, tr)
        | .ok t =>
            if t = "" then (.serverError 500, step.cache, tr)
            else
              let tr2 := tr ++ (if step.networkCall then [NetCall.tokenExchange] else [])
                ++ [NetCall.airportSearch lat lng 200]
              if api.status < 200 ∨ 300 ≤ api.status then
                (.upstreamHttp api.status, step.cache, tr2)
              else if api.data = [] then
                (.serverError 500, step.cache, tr2)
              else
                (.airports api.data, step.cache, tr2)

/-- Outcome of the tool-layer `get_airport`
(`backend/tools/airports.py` 7–72): the returned dicts, by shape. -/
inductive ToolAirportOutcome : Type
  | geoNotFound (status : Int) (title : String)
  | airports (records : List AirportRecord)
  | noAirportNear (status : Int) (title : String)
  | noAirportFor (status : Int) (title : String)
  | failedFetch (status : Int)
  | errorProcessing (status : Int)
  | noneReturn                  -- fall-through `return None` (2xx ≠ 200)
  deriving DecidableEq

/-- The tool-layer `get_airport` (`backend/tools/airports.py`).  Note: it
performs no validation of `location` before calling the geocoder. -/
def tool_get_airport (gkey : String) (env : AmadeusEnv) (location : String)
    (geo : GeoResponse) (st : TokenCache) (now : ℚ) (tok : TokenResponse)
    (issue : ℚ) (api : AirportApiResponse) :
    ToolAirportOutcome × TokenCache × List NetCall :=
  match fetch_geolocation gkey location geo with
  | (.keyMissing, tr) => (.errorProcessing 500, st, tr)
  | (.httpError s, tr) => (.failedFetch s, st, tr)
  | (.noResults, tr) =>
      (.geoNotFound 404 ("NO GEOLOCATION DATA FOUND FOR " ++ location), st, tr)
  | (.coords lat lng, tr) =>
      let step := get_access_token env st now tok issue
      match step.result with
      | .credentialsError => (.errorProcessing 500, step.cache, tr)
      | .ok _ =>
          let tr2 := tr ++ (if step.networkCall then [NetCall.tokenExchange] else [])
            ++ [NetCall.airportSearch lat lng 200]
          if api.status = 200 then
            if api.data = [] then
              (.noAirportNear 404 ("NO AIRPORT FOUND NEAR " ++ location), step.cache, tr2)
            else
              (.airports api.data, step.cache, tr2)
          else if api.status = 400 ∨ api.status = 404 then
            (.noAirportFor api.status ("NO AIRPORT FOUND FOR " ++ location), step.cache, tr2)
          else if 400 ≤ api.status then
            (.failedFetch api.status, step.cache, tr2)
          else
            (.noneReturn, step.cache, tr2)

/-! ## Flight search (`backend/utils.py` 150–253,
`backend/routers/flights.py` 14–46, `backend/tools/flights.py` 23–94). -/

/-- A flight-search request as its fields are read by
`backend/utils.py get_flights` (`.get` accesses on a duck-typed request;
`""` models an absent/`None` string field, which is exactly the
truthiness distinction the source tests). -/
structure FlightsRequest : Type where
  departure_id : String
  arrival_id : String
  outbound_date : String
  adults : Int
  children : Int
  return_date : String
  departure_token : String
  deriving DecidableEq

/-- The query the SerpAPI Google Flights engine is called with
(`query_params` in `backend/utils.py get_flights`).  `departure_token` is
an `Option` because the tool-layer variant never sets that key;
`return_date` is only set when the request has one. -/
structure SerpFlightsQuery : Type where
  api_key : String
  engine : String
  hl : String
  gl : String
  currency : String
  departure_id : String
  arrival_id : String
  outbound_date : String
  adults : Int
  children : Int
  departure_token : Option String
  type : Int
  return_date : Option String
  deriving DecidableEq

/-- The provider's JSON response, abstracted to the set of top-level keys
the source inspects membership of (`"best_flights" in result` etc.). -/
structure SerpResponse : Type where
  keys : List String
  deriving DecidableEq

/-- What `backend/utils.py get_flights` returns, by shape:
`missingKey` = the `{"status": 500, "error": "SERPAPI_API_KEY not
found..."}` dict, `noFlights` = the `{"status": 404, "error": "No flights
found..."}` dict, `response` = the raw provider result passed through,
`fetchError` = the `{"status": 500, ...}` dict from the `except` clause. -/
inductive FlightsResult : Type
  | missingKey
  | noFlights
  | response (r : SerpResponse)
  | fetchError
  deriving DecidableEq

/-- `query_params` construction of `backend/utils.py get_flights`
(lines 162–192). -/
def build_flights_query (key : String) (req : FlightsRequest) : SerpFlightsQuery :=
  { api_key := key
    engine := "google_flights"
    hl := "en"
    gl := "in"
    currency := "INR"
    departure_id := req.departure_id
    arrival_id := req.arrival_id
    outbound_date := req.outbound_date
    adults := req.adults
    children := req.children
    departure_token := some req.departure_token
    type := if req.return_date ≠ "" then 1 else 2
    return_date := if req.return_date ≠ "" then some req.return_date else none }

/-- `backend/utils.py get_flights` (150–221).  `resp = none` models the
`except` clause (the SerpAPI call raised). -/
def get_flights (key : String) (req : FlightsRequest) (resp : Option SerpResponse) :
    FlightsResult × Option SerpFlightsQuery :=
  if key = "" then (.missingKey, none)
  else
    let q := build_flights_query key req
    match resp with
    | none => (.fetchError, some q)
    | some r =>
        if "best_flights" ∉ r.keys ∧ "error" ∉ r.keys then (.noFlights, some q)
        else (.response r, some q)

/-- `query_params` construction of `backend/tools/flights.py get_flights`
(lines 41–67): same fields, but no `departure_token` key, and the type
discriminator (the dead `hasattr(query_params, "type")` branch never
fires, a dict has no such attribute) set from `params.return_date`. -/
def tools_build_flights_query (key : String) (req : FlightsRequest) : SerpFlightsQuery :=
  { api_key := key
    engine := "google_flights"
    hl := "en"
    gl := "in"
    currency := "INR"
    departure_id := req.departure_id
    arrival_id := req.arrival_id
    outbound_date := req.outbound_date
    adults := req.adults
    children := req.children
    departure_token := none
    type := if req.return_date ≠ "" then 1 else 2
    return_date := if req.return_date ≠ "" then some req.return_date else none }

/-- The fixed SerpAPI parameter dict of `backend/routers/flights.py`
(lines 17–23). -/
def SERPAPI_PARAMETERS (key : String) : PyDict :=
  [("api_key", .s key), ("engine", .s "google_flights"), ("hl", .s "en"),
   ("gl", .s "in"), ("currency", .s "INR")]

/-- The whole-number-float-to-int normalization loop written inline in
`backend/utils.py fetch_flights` (lines 238–243). -/
def clean_numeric (d : PyDict) : PyDict :=
  d.map (fun kv => match kv.2 with
    | .f v => if v.den = 1 then (kv.1, .i v.num) else kv
    | v => (kv.1, v))

/-- Modelled from the spec: `backend.utils.format_params` is imported by
`backend/routers/flights.py` but its definition is not under src; spec
§4.4 says flight search "normalizes numeric-looking values", which is
modelled as the whole-number-float-to-int conversion that
`backend/utils.py fetch_flights` performs inline. -/
def format_params (d : PyDict) : PyDict := clean_numeric d

/-- Modelled from the spec: `backend.utils.merge_flights_fields` is
imported by `backend/routers/flights.py` but its definition is not under
src; spec §4.4 says the reshaping "merge[s]/normalize[s] field names
expected by the UI" and that "absence of both a results list and an error
field from the provider is treated as a 'no flights found' outcome". -/
def merge_flights_fields (r : SerpResponse) : FlightsResult :=
  if "best_flights" ∉ r.keys ∧ "error" ∉ r.keys then .noFlights
  else .response r

/-- `backend/routers/flights.py fetch_flights` (25–46).  Returns the
outcome (`.error s` = an HTTP error status propagating, `.error 500` also
covering the JSON-parse `HTTPException`) together with the query dict
that was url-encoded and sent. -/
def router_fetch_flights (key : String) (params : PyDict) (status : Int)
    (resp : Option SerpResponse) : Except Int FlightsResult × PyDict :=
  let clean := format_params params
  let clean2 :=
    if otruthy (dget clean "return_date") then
      dset (dset clean "return_date" ((dget clean "return_date").getD (.s ""))) "type" (.i 1)
    else
      dset clean "type" (.i 2)
  let query := dmerge (SERPAPI_PARAMETERS key) clean2
  if status < 200 ∨ 300 ≤ status then (.error status, query)
  else
    match resp with
    | none => (.error 500, query)
    | some r => (.ok (merge_flights_fields r), query)

/-- `backend/utils.py fetch_flights` (232–253): merges the engine/key
dict with the (numeric-normalized) caller params, GETs, raises for
status, and returns the parsed JSON unchanged. -/
def utils_fetch_flights (key : String) (params : PyDict) (status : Int)
    (resp : Option SerpResponse) : Except Int SerpResponse × PyDict :=
  let query0 : PyDict := [("engine", .s "google_flights"), ("api_key", .s key)]
  let query := dmerge query0 (clean_numeric params)
  if status < 200 ∨ 300 ≤ status then (.error status, query)
  else
    match resp with
    | none => (.error 500, query)
    | some r => (.ok r, query)

/-! ## Booking-option lookup (`backend/utils.py` 97–147,
`backend/tools/flights.py` 103–154). -/

/-- What `backend/utils.py get_booking_options` returns, by shape.
`noToken` is produced one level up, by the UI handler, when the selected
flight has no booking token. -/
inductive BookingResult : Type
  | missingKey
  | notFound
  | response (r : SerpResponse)
  | fetchError
  | noToken
  deriving DecidableEq

def MAX_FLIGHTS : Nat := 20

def MAX_BOOKING_OPTIONS : Nat := 10

def PLACEHOLDER_IMAGE_URL : String := "https://via.placeholder.com/32"

/-- The named views (`VIEW_*` string constants, lines 11–15). -/
inductive View : Type
  | outboundCards
  | returnCards
  | outboundDetails
  | returnDetails
  | booking
  deriving DecidableEq

/-- One per-leg segment of a flight result. -/
structure Leg : Type where
  departure_airport_id : String
  arrival_airport_id : String
  airline : String
  airline_logo : String
  deriving DecidableEq

/-- One vendor flight result, with the fields the UI reads (`""` models an
absent token key, which the source only ever tests for truthiness). -/
structure Flight : Type where
  flights : List Leg
  price : Option Int
  total_duration : Option Int
  booking_token : String
  departure_token : String
  deriving DecidableEq

/-- A flight result set (`best_flights` / `other_flights`). -/
structure FlightData : Type where
  best_flights : List Flight
  other_flights : List Flight
  deriving DecidableEq

/-- `flight_data.get("best_flights", []) + flight_data.get("other_flights",
[])` with the `if flight_data else []` guard, as computed at the top of
each handler. -/
def flightsOf : Option FlightData → List Flight
  | none => []
  | some d => d.best_flights ++ d.other_flights

/-- Modelled from the spec: `utils.helpers.format_duration` is imported by
the UI but is not under src; the spec only says a card displays the
flight's total duration, modelled as rendering minutes as hours and
minutes. -/
def format_duration : Option Int → String
  | none => "N/A"
  | some m => toString (m / 60) ++ "h " ++ toString (m % 60) ++ "m"

/-- One `<img>` of the logo chain (the f-string inside the `join`,
reproducing the source's missing space between `src="..."` and
`title`). -/
def legImg (leg : Leg) : String :=
  "<img src=\"" ++ leg.airline_logo ++ "\"title=\"" ++ leg.airline
    ++ "\" onerror=\"this.src=" ++ PLACEHOLDER_IMAGE_URL ++ "\">"

/-- `flight.get('price', 'N/A')` as displayed. -/
def priceText : Option Int → String
  | none => "N/A"
  | some p => toString p

/-- `stops_text` (line 24). -/
def stopsText (stops : Int) : String :=
  if stops > 0 then toString stops ++ " stop" ++ (if stops ≠ 1 then "s" else "")
  else "Non-stop"

/-- `UIManager.get_card_html` (lines 19–41). -/
def get_card_html (idx : Nat) (flight : Flight) (selected : Bool) : String :=
  let first_dep := match flight.flights with
    | [] => ""
    | l :: _ => l.departure_airport_id
  let last_arr := match flight.flights.getLast? with
    | none => ""
    | some l => l.arrival_airport_id
  let stops : Int := (flight.flights.length : Int) - 1
  let logos := String.join (flight.flights.map legImg)
  let selected_class := if selected then "selected" else ""
  "\n        <div class=\"card " ++ selected_class ++ "\" id=\"card-"
    ++ toString idx ++ "\">\n"
    ++ "            <div class=\"logo-chain\">" ++ logos ++ "</div>\n"
    ++ "            <div class=\"route\">" ++ first_dep ++ " → " ++ last_arr ++ "</div>\n"
    ++ "            <div class=\"price\">₹" ++ priceText flight.price ++ "</div>\n"
    ++ "            <div class=\"duration\">" ++ format_duration flight.total_duration
    ++ " total</div>\n"
    ++ "            <div class=\"stops\">" ++ stopsText stops ++ "</div>\n"
    ++ "        </div>\n        "

/-- `UIManager.update_cards` (lines 43–60): one HTML string per card slot,
`MAX_FLIGHTS` slots in all; `selected` is `None` or the highlighted
index (Python `idx == None` is `False`). -/
def update_cards (selected : Option Int) (flight_data : Option FlightData) :
    List String :=
  let flights := flightsOf flight_data
  (List.range MAX_FLIGHTS).map (fun idx =>
    if h : idx < flights.length then
      get_card_html idx (flights.get ⟨idx, h⟩) (decide (selected = some (idx : Int)))
    else "")

/-- The request dict whose truthy keys `UIManager.get_flight_details`
branches on. -/
structure DetailsParams : Type where
  return_date : String
  departure_token : String
  booking_token : String
  deriving DecidableEq

/-- Modelled from the spec: `utils.helpers.build_details` is imported by
the UI but is not under src; the spec only says selecting a card "shows
its details view", so the details payload is an uninterpreted rendering
of the selection. -/
def build_details (selected : Int) (_flight_data : Option FlightData) : String :=
  "flight details " ++ toString selected

/-- `UIManager.get_flight_details` (lines 109–120): `none` models the
implicit Python `None` return when no branch fires. -/
def get_flight_details (selected : Int) (flight_data : Option FlightData)
    (params : DetailsParams) : Option (View × String) :=
  if params.return_date ≠ "" then
    some (.outboundDetails, build_details selected flight_data)
  else if params.departure_token ≠ "" then
    some (.returnDetails, build_details selected flight_data)
  else if params.booking_token ≠ "" then
    some (.booking, build_details selected flight_data)
  else
    none

/-- An uncaught Python exception escaping a UI handler. -/
inductive PyError : Type
  | indexError
  | httpError (status : Int)
  | attributeError
  deriving DecidableEq

/-- The original search payload as a dict, for the handler that spreads it
into `utils.fetch_flights`. -/
def FlightsRequest.toDict (r : FlightsRequest) : PyDict :=
  [("departure_id", .s r.departure_id), ("arrival_id", .s r.arrival_id),
   ("outbound_date", .s r.outbound_date), ("adults", .i r.adults),
   ("children", .i r.children), ("return_date", .s r.return_date),
   ("departure_token", .s r.departure_token)]

/-- `backend/utils.py get_booking_options` as actually invoked by the UI
handler, with a plain dict argument (`{**initial_payload,
"booking_token": ...}`).  The missing-key early return (lines 109–111)
completes normally, and the `.get` reads building `query_params`
(lines 113–126) succeed on a dict, but line 127 (`if params.return_date:`)
is an attribute access, which raises `AttributeError` on a dict before
the provider is ever contacted. -/
def get_booking_options_on_dict (key : String) (_params : PyDict) :
    Except PyError BookingResult :=
  if key = "" then .ok .missingKey
  else .error .attributeError

/-- `UIManager.on_booking_options` (lines 122–162): indexes the combined
list with no bounds check (`.error .indexError` = the uncaught
`IndexError`), then branches on the flight's booking token and calls
`utils.get_booking_options` on the spread dict payload — which, with the
SerpAPI key configured, raises an uncaught `AttributeError`
(`utils.py` line 127) before any provider call. -/
def on_booking_options (key : String) (selected : Int)
    (flight_data : Option FlightData) (initial_payload : FlightsRequest) :
    Except PyError (View × BookingResult) :=
  let flights := flightsOf flight_data
  match pyGet flights selected with
  | none => .error .indexError
  | some f =>
      if f.booking_token = "" then .ok (.booking, .noToken)
      else
        match get_booking_options_on_dict key
            (dset initial_payload.toDict "booking_token" (.s f.booking_token)) with
        | .error e => .error e
        | .ok r => .ok (.booking, r)

/-- What `on_get_return_flights` pairs with `VIEW_RETURN_CARDS`. -/
inductive ReturnFlightsData : Type
  | noToken
  | data (r : SerpResponse)
  deriving DecidableEq

/-- `UIManager.on_get_return_flights` (lines 164–190): indexes the
combined list with no bounds check, then branches on the departure token
and awaits `utils.fetch_flights` on the spread payload (whose failures
propagate uncaught, `.error (.httpError s)`). -/
def on_get_return_flights (key : String) (selected : Int)
    (flight_data : Option FlightData) (initial_payload : FlightsRequest)
    (status : Int) (resp : Option SerpResponse) :
    Except PyError (View × ReturnFlightsData) :=
  let flights := flightsOf flight_data
  match pyGet flights selected with
  | none => .error .indexError
  | some f =>
      if f.departure_token = "" then .ok (.returnCards, .noToken)
      else
        let dinput :=
          dset initial_payload.toDict "departure_token" (.s f.departure_token)
        match (utils_fetch_flights key dinput status resp).1 with
        | .error s => .error (.httpError s)
        | .ok r => .ok (.returnCards, .data r)

/-! ## Claim theorems -/

/-- C1: for every call to `get_access_token` (with credentials
configured, which spec §6 presupposes): if a cached token exists and the
current time is strictly before the cached expiry instant, the call
returns the identical cached token, leaves the cache unchanged and makes
no network call; otherwise it performs the client-credentials exchange,
stores the returned token with expiry `issuance time + expires_in − 10`
and returns the new token. -/
theorem C1_token_cache_contract (env : AmadeusEnv) (st : TokenCache)
    (now issue : ℚ) (fresh : TokenResponse)
    (hcred : env.client_id ≠ "" ∧ env.client_secret ≠ "") :
    (st.token ≠ "" ∧ now < st.expiry →
      get_access_token env st now fresh issue = ⟨.ok st.token, st, false⟩)
    ∧ (¬(st.token ≠ "" ∧ now < st.expiry) →
      get_access_token env st now fresh issue =
        ⟨.ok fresh.access_token,
         ⟨fresh.access_token, issue + fresh.expires_in - 10⟩, true⟩) := by
  constructor
  · intro h
    simp [get_access_token, h]
  · intro h
    simp [get_access_token, h, hcred.1, hcred.2]

/-- C1 witness: a concrete cache hit returns the cached token with no
network call. -/
theorem C1_token_cache_contract_witness :
    get_access_token ⟨"amadeus-id", "amadeus-secret"⟩ ⟨"cached-tok", 100⟩ 5
        ⟨"fresh-tok", 1799⟩ 6 =
      ⟨.ok "cached-tok", ⟨"cached-tok", 100⟩, false⟩ :=
  (C1_token_cache_contract ⟨"amadeus-id", "amadeus-secret"⟩ ⟨"cached-tok", 100⟩
      5 6 ⟨"fresh-tok", 1799⟩ ⟨by decide, by decide⟩).1
    ⟨by decide, by norm_num⟩

/-- C9 counterexample: the cached token is not a single shared instance.
From the initial process state, a refresh through the airports-router
path obtains and caches token `A`; a subsequent call through the
`backend.utils` path, still inside `A`'s validity window, nevertheless
performs its own exchange and returns its own token `B`, not `A`: the
refresh was not re-shared across code paths. -/
theorem C9_shared_token_counterexample :
    (router_get_access_token ⟨"amadeus-id", "amadeus-secret"⟩
        ⟨TokenCache.init, TokenCache.init⟩ 0 ⟨"A", 1799⟩ 0).1 = .ok "A"
    ∧ (router_get_access_token ⟨"amadeus-id", "amadeus-secret"⟩
        ⟨TokenCache.init, TokenCache.init⟩ 0 ⟨"A", 1799⟩ 0).2.1 =
        ⟨TokenCache.init, ⟨"A", 1789⟩⟩
    ∧ (5 : ℚ) < 1789
    ∧ (utils_get_access_token ⟨"amadeus-id", "amadeus-secret"⟩
        ⟨TokenCache.init, ⟨"A", 1789⟩⟩ 5 ⟨"B", 1799⟩ 5).2.2 = true
    ∧ (utils_get_access_token ⟨"amadeus-id", "amadeus-secret"⟩
        ⟨TokenCache.init, ⟨"A", 1789⟩⟩ 5 ⟨"B", 1799⟩ 5).1 = .ok "B"
    ∧ TokenResult.ok "B" ≠ TokenResult.ok "A" := by
  refine ⟨?_, ?_, by norm_num, ?_, ?_, by decide⟩ <;>
    simp [router_get_access_token, utils_get_access_token, get_access_token,
      TokenCache.init]
  norm_num

/-- C9 (amended): the process holds two independent token caches, one in
`backend.utils` and one in the airports router.  Each operation reads and
writes only its own module's token/expiry pair (the other module's pair
is untouched), and within one module a cached in-window token is returned
identically to every subsequent caller of that module with no network
call. -/
theorem C9_amended_two_module_caches (env : AmadeusEnv) (ps : ProcState)
    (now issue : ℚ) (fresh : TokenResponse) :
    ((utils_get_access_token env ps now fresh issue).2.1.routerCache = ps.routerCache)
    ∧ ((router_get_access_token env ps now fresh issue).2.1.utilsCache = ps.utilsCache)
    ∧ (ps.utilsCache.token ≠ "" ∧ now < ps.utilsCache.expiry →
        utils_get_access_token env ps now fresh issue =
          (.ok ps.utilsCache.token, ps, false))
    ∧ (ps.routerCache.token ≠ "" ∧ now < ps.routerCache.expiry →
        router_get_access_token env ps now fresh issue =
          (.ok ps.routerCache.token, ps, false)) := by
  refine ⟨rfl, rfl, ?_, ?_⟩
  · intro h
    simp [utils_get_access_token, get_access_token, h]
  · intro h
    simp [router_get_access_token, get_access_token, h]

/-- C9 (amended) witness: concrete cache hits through each module. -/
theorem C9_amended_two_module_caches_witness :
    utils_get_access_token ⟨"amadeus-id", "amadeus-secret"⟩
        ⟨⟨"U", 100⟩, ⟨"R", 200⟩⟩ 5 ⟨"F", 1799⟩ 5 =
      (.ok "U", ⟨⟨"U", 100⟩, ⟨"R", 200⟩⟩, false)
    ∧ router_get_access_token ⟨"amadeus-id", "amadeus-secret"⟩
        ⟨⟨"U", 100⟩, ⟨"R", 200⟩⟩ 5 ⟨"F", 1799⟩ 5 =
      (.ok "R", ⟨⟨"U", 100⟩, ⟨"R", 200⟩⟩, false) :=
  ⟨(C9_amended_two_module_caches ⟨"amadeus-id", "amadeus-secret"⟩
      ⟨⟨"U", 100⟩, ⟨"R", 200⟩⟩ 5 5 ⟨"F", 1799⟩).2.2.1 ⟨by decide, by norm_num⟩,
   (C9_amended_two_module_caches ⟨"amadeus-id", "amadeus-secret"⟩
      ⟨⟨"U", 100⟩, ⟨"R", 200⟩⟩ 5 5 ⟨"F", 1799⟩).2.2.2 ⟨by decide, by norm_num⟩⟩

theorem round4_mul_den (x : ℚ) : (round4 x * 10000).den = 1 := by
  have h : round4 x * 10000 = ((round (x * 10000) : Int) : ℚ) := by
    unfold round4
    field_simp
  rw [h]
  exact Rat.den_intCast _

theorem round4_close (x : ℚ) : |round4 x - x| ≤ 1 / 20000 := by
  have h : round4 x - x = (((round (x * 10000) : Int) : ℚ) - x * 10000) / 10000 := by
    unfold round4
    field_simp
    ring
  have h2 : |((round (x * 10000) : Int) : ℚ) - x * 10000| ≤ 1 / 2 := by
    rw [abs_sub_comm]
    exact abs_sub_round (x * 10000)
  rw [h, abs_div, show |(10000 : ℚ)| = 10000 by norm_num,
    div_le_iff₀ (by norm_num : (0 : ℚ) < 10000)]
  have h3 : (1 : ℚ) / 20000 * 10000 = 1 / 2 := by norm_num
  rw [h3]
  exact h2

/-- C2 counterexample: a whitespace-only location is not always rejected
before a network call.  The tool-layer `get_airport` (which performs no
input validation) issues a geocoding request for the stripped-empty
address and yields the geolocation-not-found dict, refuting the claim at
the concrete input `" "`. -/
theorem C2_reject_empty_counterexample :
    (tool_get_airport "gkey" ⟨"amadeus-id", "amadeus-secret"⟩ " "
        ⟨200, []⟩ TokenCache.init 0 ⟨"T", 1799⟩ 0 ⟨200, []⟩).2.2 =
      [NetCall.geocode ""]
    ∧ [NetCall.geocode ""] ≠ ([] : List NetCall) := by
  constructor
  · decide
  · decide

/-- C2 (amended): the router-level airport lookup rejects every empty or
whitespace-only location with an invalid-input error before any network
call; the tool-layer lookup instead issues a geocoding request for the
stripped input (and, when the provider then returns no results, yields
its geolocation-not-found outcome rather than an invalid-input error). -/
theorem C2_amended_empty_location (gkey : String) (env : AmadeusEnv)
    (location : String) (geo : GeoResponse) (st : TokenCache) (now : ℚ)
    (tok : TokenResponse) (issue : ℚ) (api : AirportApiResponse)
    (h : pyStrip location = "") :
    router_get_airport gkey env location geo st now tok issue api =
      (.invalidInput "Location cannot be empty", st, [])
    ∧ (gkey ≠ "" → 200 ≤ geo.status → geo.status < 300 → geo.results = [] →
        tool_get_airport gkey env location geo st now tok issue api =
          (.geoNotFound 404 ("NO GEOLOCATION DATA FOUND FOR " ++ location), st,
           [NetCall.geocode (pyStrip location)])) := by
  constructor
  · simp [router_get_airport, h]
  · intro hk h2 h3 hres
    rcases geo with ⟨gs, gres⟩
    simp only [GeoResponse.results] at hres
    subst hres
    simp only [GeoResponse.status] at h2 h3
    have hcond : ¬(gs < 200 ∨ 300 ≤ gs) := by omega
    simp [tool_get_airport, fetch_geolocation, hk, hcond]

/-- C2 (amended) witness: at the concrete whitespace location `" "` the
router rejects with no network call while the tool issues the geocode
request. -/
theorem C2_amended_empty_location_witness :
    router_get_airport "gkey" ⟨"amadeus-id", "amadeus-secret"⟩ " "
        ⟨200, []⟩ TokenCache.init 0 ⟨"T", 1799⟩ 0 ⟨200, []⟩ =
      (.invalidInput "Location cannot be empty", TokenCache.init, [])
    ∧ tool_get_airport "gkey" ⟨"amadeus-id", "amadeus-secret"⟩ " "
        ⟨200, []⟩ TokenCache.init 0 ⟨"T", 1799⟩ 0 ⟨200, []⟩ =
      (.geoNotFound 404 ("NO GEOLOCATION DATA FOUND FOR " ++ " "), TokenCache.init,
       [NetCall.geocode (pyStrip " ")]) :=
  ⟨(C2_amended_empty_location "gkey" ⟨"amadeus-id", "amadeus-secret"⟩ " "
      ⟨200, []⟩ TokenCache.init 0 ⟨"T", 1799⟩ 0 ⟨200, []⟩ (by decide)).1,
   (C2_amended_empty_location "gkey" ⟨"amadeus-id", "amadeus-secret"⟩ " "
      ⟨200, []⟩ TokenCache.init 0 ⟨"T", 1799⟩ 0 ⟨200, []⟩ (by decide)).2
     (by decide) (by norm_num) (by norm_num) rfl⟩

/-- C7: on a successful geocoding response with an empty results list the
router airport lookup returns the structured status-404
geolocation-not-found value (a returned dict, distinguishable by
construction from the upstream-failure outcomes); on a non-empty results
list the geocoding step returns the first result's coordinate with
latitude and longitude rounded to four decimal places (an integer
multiple of 1/10000, within half a unit of the raw value). -/
theorem C7_geocode_outcomes (gkey : String) (env : AmadeusEnv)
    (location : String) (geo : GeoResponse) (st : TokenCache) (now : ℚ)
    (tok : TokenResponse) (issue : ℚ) (api : AirportApiResponse)
    (hloc : pyStrip location ≠ "") (hkey : gkey ≠ "")
    (hst : 200 ≤ geo.status ∧ geo.status < 300) :
    (geo.results = [] →
      (router_get_airport gkey env location geo st now tok issue api).1 =
        .geoNotFound 404 ("NO GEOLOCATION DATA FOUND FOR " ++ location)
      ∧ ∀ s : Int,
          RouterAirportOutcome.geoNotFound 404
            ("NO GEOLOCATION DATA FOUND FOR " ++ location) ≠ .upstreamHttp s)
    ∧ (∀ c rest, geo.results = c :: rest →
        (fetch_geolocation gkey location geo).1 =
          .coords (round4 c.lat) (round4 c.lng)
        ∧ (round4 c.lat * 10000).den = 1 ∧ (round4 c.lng * 10000).den = 1
        ∧ |round4 c.lat - c.lat| ≤ 1 / 20000
        ∧ |round4 c.lng - c.lng| ≤ 1 / 20000) := by
  obtain ⟨gs, gres⟩ := geo
  simp only [GeoResponse.status] at hst
  have hcond : ¬(gs < 200 ∨ 300 ≤ gs) := by omega
  constructor
  · intro hres
    simp only [GeoResponse.results] at hres
    subst hres
    constructor
    · simp [router_get_airport, fetch_geolocation, hloc, hkey, hcond]
    · intro s
      simp
  · intro c rest hres
    simp only [GeoResponse.results] at hres
    subst hres
    exact ⟨by simp [fetch_geolocation, hkey, hcond],
      round4_mul_den _, round4_mul_den _, round4_close _, round4_close _⟩

/-- C7 witness: a concrete empty geocoding result yields the 404 value,
and a concrete result is rounded to 4 decimals. -/
theorem C7_geocode_outcomes_witness :
    (router_get_airport "gkey" ⟨"amadeus-id", "amadeus-secret"⟩ "Paris"
        ⟨200, []⟩ TokenCache.init 0 ⟨"T", 1799⟩ 0 ⟨200, []⟩).1 =
      .geoNotFound 404 ("NO GEOLOCATION DATA FOUND FOR " ++ "Paris")
    ∧ (fetch_geolocation "gkey" "Paris" ⟨200, [⟨(488566667 : ℚ) / 10000000,
        (23522219 : ℚ) / 10000000⟩]⟩).1 =
      .coords (round4 ((488566667 : ℚ) / 10000000)) (round4 ((23522219 : ℚ) / 10000000)) :=
  ⟨((C7_geocode_outcomes "gkey" ⟨"amadeus-id", "amadeus-secret"⟩ "Paris"
      ⟨200, []⟩ TokenCache.init 0 ⟨"T", 1799⟩ 0 ⟨200, []⟩ (by decide) (by decide)
      ⟨by norm_num, by norm_num⟩).1 rfl).1,
   ((C7_geocode_outcomes "gkey" ⟨"amadeus-id", "amadeus-secret"⟩ "Paris"
      ⟨200, [⟨(488566667 : ℚ) / 10000000, (23522219 : ℚ) / 10000000⟩]⟩
      TokenCache.init 0 ⟨"T", 1799⟩ 0 ⟨200, []⟩ (by decide) (by decide)
      ⟨by norm_num, by norm_num⟩).2 _ [] rfl).1⟩

theorem dget_clean_numeric (d : PyDict) (k : String) :
    dget (clean_numeric d) k = (dget d k).map (fun v => match v with
      | .f q => if q.den = 1 then .i q.num else .f q
      | v => v) := by
  induction d with
  | nil => simp [clean_numeric, dget]
  | cons kv rest ih =>
      obtain ⟨k1, v1⟩ := kv
      by_cases h : k1 = k
      · cases v1 with
        | s v => simp [clean_numeric, dget, h]
        | i v => simp [clean_numeric, dget, h]
        | f v => by_cases hd : v.den = 1 <;> simp [clean_numeric, dget, h, hd]
      · cases v1 with
        | s v => simpa [clean_numeric, dget, h] using ih
        | i v => simpa [clean_numeric, dget, h] using ih
        | f v => by_cases hd : v.den = 1 <;> simpa [clean_numeric, dget, h, hd] using ih

theorem serpapi_parameters_no_type (key : String) :
    ∀ kv ∈ SERPAPI_PARAMETERS key, kv.1 ≠ "type" := by
  intro kv hkv
  simp only [SERPAPI_PARAMETERS, List.mem_cons, List.mem_singleton] at hkv
  rcases hkv with rfl | rfl | rfl | rfl | rfl | h
  · simp
  · simp
  · simp
  · simp
  · simp
  · simp at h

theorem router_fetch_flights_snd (key : String) (params : PyDict) (status : Int)
    (resp : Option SerpResponse) :
    (router_fetch_flights key params status resp).2 =
      dmerge (SERPAPI_PARAMETERS key)
        (if otruthy (dget (format_params params) "return_date") then
          dset (dset (format_params params) "return_date"
            ((dget (format_params params) "return_date").getD (.s ""))) "type" (.i 1)
        else dset (format_params params) "type" (.i 2)) := by
  unfold router_fetch_flights
  by_cases h : status < 200 ∨ 300 ≤ status
  · simp [h]
  · cases resp <;> simp [h]

/-- C3: the round-trip/one-way type discriminator placed in the outgoing
provider query is 1 exactly when the request carries a non-empty return
date and 2 when it is absent or empty — in all three implementations:
`backend/utils.py get_flights`, `backend/tools/flights.py get_flights`,
and `backend/routers/flights.py fetch_flights` (the dict pipeline). -/
theorem C3_type_discriminator (key : String) (req : FlightsRequest)
    (params : PyDict) (status : Int) (resp : Option SerpResponse) :
    ((req.return_date ≠ "" →
        (build_flights_query key req).type = 1
        ∧ (tools_build_flights_query key req).type = 1)
     ∧ (req.return_date = "" →
        (build_flights_query key req).type = 2
        ∧ (tools_build_flights_query key req).type = 2))
    ∧ (∀ s : String, s ≠ "" → dget params "return_date" = some (.s s) →
        dget (router_fetch_flights key params status resp).2 "type" = some (.i 1))
    ∧ ((dget params "return_date" = none ∨ dget params "return_date" = some (.s "")) →
        dget (router_fetch_flights key params status resp).2 "type" = some (.i 2)) := by
  refine ⟨⟨?_, ?_⟩, ?_, ?_⟩
  · intro h
    exact ⟨by simp [build_flights_query, h], by simp [tools_build_flights_query, h]⟩
  · intro h
    exact ⟨by simp [build_flights_query, h], by simp [tools_build_flights_query, h]⟩
  · intro s hs hrd
    rw [router_fetch_flights_snd,
      dget_dmerge_of_no_key _ _ _ (serpapi_parameters_no_type key)]
    have hfp : dget (format_params params) "return_date" = some (.s s) := by
      rw [format_params, dget_clean_numeric, hrd]
      simp
    rw [hfp]
    simp [otruthy, PyValue.truthy, hs, dget_dset_self]
  · intro hrd
    rw [router_fetch_flights_snd,
      dget_dmerge_of_no_key _ _ _ (serpapi_parameters_no_type key)]
    rcases hrd with hrd | hrd
    · have hfp : dget (format_params params) "return_date" = none := by
        rw [format_params, dget_clean_numeric, hrd]
        simp
      rw [hfp]
      simp [otruthy, dget_dset_self]
    · have hfp : dget (format_params params) "return_date" = some (.s "") := by
        rw [format_params, dget_clean_numeric, hrd]
        simp
      rw [hfp]
      simp [otruthy, PyValue.truthy, dget_dset_self]

/-- C3 witness: concrete round-trip and one-way requests through both the
record pipeline and the dict pipeline. -/
theorem C3_type_discriminator_witness :
    (build_flights_query "serp-key" ⟨"DEL", "BOM", "2025-06-01", 1, 0, "2025-06-10", ""⟩).type = 1
    ∧ (build_flights_query "serp-key" ⟨"DEL", "BOM", "2025-06-01", 1, 0, "", ""⟩).type = 2
    ∧ dget (router_fetch_flights "serp-key" [("return_date", .s "2025-06-10")] 200
        (some ⟨["best_flights"]⟩)).2 "type" = some (.i 1)
    ∧ dget (router_fetch_flights "serp-key" [] 200 (some ⟨["best_flights"]⟩)).2 "type" =
        some (.i 2) :=
  ⟨((C3_type_discriminator "serp-key" ⟨"DEL", "BOM", "2025-06-01", 1, 0, "2025-06-10", ""⟩
      [] 200 (some ⟨["best_flights"]⟩)).1.1 (by decide)).1,
   ((C3_type_discriminator "serp-key" ⟨"DEL", "BOM", "2025-06-01", 1, 0, "", ""⟩
      [] 200 (some ⟨["best_flights"]⟩)).1.2 rfl).1,
   (C3_type_discriminator "serp-key" ⟨"DEL", "BOM", "2025-06-01", 1, 0, "", ""⟩
      [("return_date", .s "2025-06-10")] 200 (some ⟨["best_flights"]⟩)).2.1
     "2025-06-10" (by decide) rfl,
   (C3_type_discriminator "serp-key" ⟨"DEL", "BOM", "2025-06-01", 1, 0, "", ""⟩
      [] 200 (some ⟨["best_flights"]⟩)).2.2 (Or.inl rfl)⟩

/-- C4: a flight-search provider response containing neither
`best_flights` nor `error` is normalized to the structured
no-flights-found outcome — by `backend/utils.py get_flights` directly and
by the router pipeline's reshaping — and that outcome is distinguishable
from a passed-through response and from a fetch failure. -/
theorem C4_no_flights_normalized (key : String) (req : FlightsRequest)
    (params : PyDict) (r : SerpResponse) (hkey : key ≠ "")
    (hb : "best_flights" ∉ r.keys) (he : "error" ∉ r.keys) :
    (get_flights key req (some r)).1 = .noFlights
    ∧ (∀ status : Int, ¬(status < 200 ∨ 300 ≤ status) →
        (router_fetch_flights key params status (some r)).1 = .ok .noFlights)
    ∧ (∀ r' : SerpResponse, FlightsResult.noFlights ≠ .response r')
    ∧ FlightsResult.noFlights ≠ .fetchError := by
  refine ⟨?_, ?_, ?_, by simp⟩
  · simp [get_flights, hkey, hb, he]
  · intro status hs
    simp [router_fetch_flights, merge_flights_fields, hs, hb, he]
  · intro r'
    simp

/-- C4 witness: a concrete response with neither key yields the
no-flights outcome on both paths. -/
theorem C4_no_flights_normalized_witness :
    (get_flights "serp-key" ⟨"DEL", "BOM", "2025-06-01", 1, 0, "", ""⟩
        (some ⟨["search_metadata"]⟩)).1 = .noFlights
    ∧ (router_fetch_flights "serp-key" [] 200 (some ⟨["search_metadata"]⟩)).1 =
        .ok .noFlights :=
  ⟨(C4_no_flights_normalized "serp-key" ⟨"DEL", "BOM", "2025-06-01", 1, 0, "", ""⟩
      [] ⟨["search_metadata"]⟩ (by decide) (by decide) (by decide)).1,
   (C4_no_flights_normalized "serp-key" ⟨"DEL", "BOM", "2025-06-01", 1, 0, "", ""⟩
      [] ⟨["search_metadata"]⟩ (by decide) (by decide) (by decide)).2.1 200
     (by norm_num)⟩

/-- C5 counterexample: the detail-view transition does not follow the
claimed rules.  A request that carries both a return date and a
`departure_token` (exactly the shape `on_get_return_flights` builds, a
round-trip payload spread together with the token) yields the outbound
details view, not the claimed return details view; and a request lacking
a return date and carrying no token yields no view at all rather than
the claimed outbound details. -/
theorem C5_details_view_counterexample :
    (get_flight_details 0 none ⟨"2025-06-10", "DTOK", ""⟩).map Prod.fst =
      some View.outboundDetails
    ∧ some View.outboundDetails ≠ some View.returnDetails
    ∧ get_flight_details 0 none ⟨"", "", ""⟩ = none
    ∧ (∀ d : String,
        (none : Option (View × String)) ≠ some (View.outboundDetails, d)) := by
  refine ⟨rfl, by simp, rfl, ?_⟩
  intro d
  simp

/-- C5 (amended): the transition branches on the return date first: a
request with a non-empty return date always shows outbound details; only
with no return date does a `departure_token` show return details, and
only with neither does a `booking_token` show the booking view; with none
of the three the handler produces no view. -/
theorem C5_amended_details_transition (selected : Int) (fd : Option FlightData)
    (p : DetailsParams) :
    (p.return_date ≠ "" →
      get_flight_details selected fd p =
        some (.outboundDetails, build_details selected fd))
    ∧ (p.return_date = "" → p.departure_token ≠ "" →
      get_flight_details selected fd p =
        some (.returnDetails, build_details selected fd))
    ∧ (p.return_date = "" → p.departure_token = "" → p.booking_token ≠ "" →
      get_flight_details selected fd p =
        some (.booking, build_details selected fd))
    ∧ (p.return_date = "" → p.departure_token = "" → p.booking_token = "" →
      get_flight_details selected fd p = none) := by
  refine ⟨?_, ?_, ?_, ?_⟩ <;> intros <;> simp [get_flight_details, *]

/-- C5 (amended) witness: all four branches at concrete params. -/
theorem C5_amended_details_transition_witness :
    get_flight_details 1 none ⟨"2025-06-10", "", ""⟩ =
      some (.outboundDetails, build_details 1 none)
    ∧ get_flight_details 1 none ⟨"", "DTOK", ""⟩ =
      some (.returnDetails, build_details 1 none)
    ∧ get_flight_details 1 none ⟨"", "", "BTOK"⟩ =
      some (.booking, build_details 1 none)
    ∧ get_flight_details 1 none ⟨"", "", ""⟩ = none :=
  ⟨(C5_amended_details_transition 1 none ⟨"2025-06-10", "", ""⟩).1 (by decide),
   (C5_amended_details_transition 1 none ⟨"", "DTOK", ""⟩).2.1 rfl (by decide),
   (C5_amended_details_transition 1 none ⟨"", "", "BTOK"⟩).2.2.1 rfl rfl (by decide),
   (C5_amended_details_transition 1 none ⟨"", "", ""⟩).2.2.2 rfl rfl rfl⟩

theorem data_append_ne_nil (s t : String) (h : s.data ≠ []) :
    (s ++ t).data ≠ [] := by
  rw [String.data_append]
  intro hc
  rcases List.append_eq_nil.mp hc with ⟨h1, _⟩
  exact h h1

theorem string_ne_empty_of_data (s : String) (h : s.data ≠ []) : s ≠ "" :=
  fun hc => h (by rw [hc])

theorem get_card_html_ne_empty (idx : Nat) (f : Flight) (sel : Bool) :
    get_card_html idx f sel ≠ "" := by
  apply string_ne_empty_of_data
  unfold get_card_html
  repeat' apply data_append_ne_nil
  decide

theorem update_cards_getD (sel : Option Int) (fd : Option FlightData)
    (i : Nat) (h : i < MAX_FLIGHTS) :
    (update_cards sel fd).getD i "" =
      (if h2 : i < (flightsOf fd).length then
        get_card_html i ((flightsOf fd).get ⟨i, h2⟩) (decide (sel = some (i : Int)))
      else "") := by
  unfold update_cards
  rw [List.getD_eq_getElem?_getD, List.getElem?_map, List.getElem?_range h]
  rfl

theorem countP_map_range_min (g : Nat → String) (L : Nat)
    (hg : ∀ i, (g i ≠ "") ↔ i < L) :
    ∀ n, (((List.range n).map g).countP (fun s => !(s == ""))) = min L n := by
  intro n
  induction n with
  | zero => simp
  | succ n ih =>
      rw [List.range_succ, List.map_append, List.countP_append, ih]
      by_cases h : n < L
      · have hgn : (!(g n == "")) = true := by
          simpa using (hg n).mpr h
        simp only [List.map_cons, List.map_nil, List.countP_cons, List.countP_nil, hgn]
        norm_num [Nat.min_def]
        split_ifs <;> omega
      · have hgn : (!(g n == "")) = false := by
          have h0 : g n = "" := by
            by_contra hc
            exact h ((hg n).mp hc)
          simp [h0]
        simp only [List.map_cons, List.map_nil, List.countP_cons, List.countP_nil, hgn]
        norm_num [Nat.min_def]
        split_ifs <;> omega

/-- C6: card rendering always yields exactly `MAX_FLIGHTS` (20) slots;
slot `i` holds non-empty content exactly when
`i < len best_flights + len other_flights`, and then it is the card HTML
of the `i`-th flight of the combined list (best flights first, in order,
then the other flights); the number of non-empty slots is the combined
length capped at 20 (so 3 best + 2 other flights give exactly 5 non-empty
and 15 empty slots). -/
theorem C6_card_slots (sel : Option Int) (fd : Option FlightData) :
    (update_cards sel fd).length = MAX_FLIGHTS
    ∧ (∀ i : Nat, i < MAX_FLIGHTS →
        (((update_cards sel fd).getD i "" ≠ "") ↔ i < (flightsOf fd).length))
    ∧ (∀ i : Nat, i < MAX_FLIGHTS → ∀ h2 : i < (flightsOf fd).length,
        (update_cards sel fd).getD i "" =
          get_card_html i ((flightsOf fd).get ⟨i, h2⟩) (decide (sel = some (i : Int))))
    ∧ (update_cards sel fd).countP (fun s => !(s == "")) =
        min (flightsOf fd).length MAX_FLIGHTS := by
  refine ⟨by simp [update_cards], ?_, ?_, ?_⟩
  · intro i h
    rw [update_cards_getD sel fd i h]
    by_cases h2 : i < (flightsOf fd).length
    · simp [h2, get_card_html_ne_empty]
    · simp [h2]
  · intro i h h2
    rw [update_cards_getD sel fd i h]
    simp [h2]
  · unfold update_cards
    apply countP_map_range_min
    intro i
    by_cases h2 : i < (flightsOf fd).length
    · simp [h2, get_card_html_ne_empty]
    · simp [h2]

/-- A minimal flight record, for the C6 witness instance. -/
def c6flight : Flight := ⟨[], none, none, "", ""⟩

/-- A result set with 3 best and 2 other flights, for the C6 witness. -/
def c6fd : FlightData := ⟨[c6flight, c6flight, c6flight], [c6flight, c6flight]⟩

/-- C6 witness: on the concrete 3 + 2 result set, slot 4 is non-empty,
slot 5 is empty, and exactly `min 5 20 = 5` slots are non-empty. -/
theorem C6_card_slots_witness :
    ((update_cards none (some c6fd)).getD 4 "" ≠ "" ↔
      4 < (flightsOf (some c6fd)).length)
    ∧ ((update_cards none (some c6fd)).getD 5 "" ≠ "" ↔
      5 < (flightsOf (some c6fd)).length)
    ∧ (update_cards none (some c6fd)).countP (fun s => !(s == "")) =
        min (flightsOf (some c6fd)).length MAX_FLIGHTS
    ∧ min (flightsOf (some c6fd)).length MAX_FLIGHTS = 5 :=
  ⟨(C6_card_slots none (some c6fd)).2.1 4 (by decide),
   (C6_card_slots none (some c6fd)).2.1 5 (by decide),
   (C6_card_slots none (some c6fd)).2.2.2,
   by decide⟩

theorem pyGet_eq_none_iff {α : Type} (l : List α) (i : Int) :
    pyGet l i = none ↔ ¬(-(l.length : Int) ≤ i ∧ i < (l.length : Int)) := by
  unfold pyGet
  by_cases h : i < 0
  · simp only [h, if_true]
    by_cases h2 : (0 : Int) ≤ (l.length : Int) + i
    · simp only [h2, if_true]
      rw [List.get?_eq_none]
      omega
    · simp only [h2, if_false]
      constructor
      · intro _
        omega
      · intro _
        trivial
  · simp only [h, if_false]
    have h2 : (0 : Int) ≤ i := by omega
    simp only [h2, if_true]
    rw [List.get?_eq_none]
    omega

/-- A flight carrying both continuation tokens, for the C10 instances. -/
def c10flight : Flight := ⟨[], none, none, "BTOK", "DTOK"⟩

/-- A result set with a single (best) flight, for the C10 instances. -/
def c10fd : FlightData := ⟨[c10flight], []⟩

/-- C10 counterexample: the handlers do not fail with an uncaught
indexing error on every selection index outside
`[0, len(best) + len(other))`.  With a single-flight result set, index
`-1` is outside `[0, 1)`, yet Python's negative indexing makes
`on_get_return_flights` return a normal view/result pair, and
`on_booking_options` fails not with an indexing error but with the
`AttributeError` that `utils.get_booking_options` raises on its dict
argument (`utils.py` line 127) before any provider call. -/
theorem C10_selection_bounds_counterexample :
    ((-1 : Int) < 0)
    ∧ on_get_return_flights "serp-key" (-1) (some c10fd)
        ⟨"DEL", "BOM", "2025-06-01", 1, 0, "", ""⟩ 200 (some ⟨["best_flights"]⟩) =
      .ok (.returnCards, .data ⟨["best_flights"]⟩)
    ∧ on_booking_options "serp-key" (-1) (some c10fd)
        ⟨"DEL", "BOM", "2025-06-01", 1, 0, "", ""⟩ =
      .error .attributeError
    ∧ PyError.attributeError ≠ PyError.indexError := by
  refine ⟨by norm_num, ?_, ?_, by decide⟩
  · rfl
  · rfl

/-- C10 (amended): both handlers index the combined list with no bounds
check under Python list semantics: they raise an uncaught `IndexError`
exactly when the selection index is outside `[-(len best + len other),
len best + len other)` (negative indices count from the end), and any
normal return implies the index was inside that range.  Inside the
range, `on_booking_options` with a truthy booking token and a configured
SerpAPI key never returns a pair either: it fails with the uncaught
`AttributeError` from `utils.get_booking_options`'s attribute read on
its dict argument, before any provider call. -/
theorem C10_amended_python_indexing (key : String) (selected : Int)
    (fd : Option FlightData) (payload : FlightsRequest) (status : Int)
    (resp : Option SerpResponse) :
    (on_booking_options key selected fd payload = .error .indexError ↔
      ¬(-((flightsOf fd).length : Int) ≤ selected
        ∧ selected < ((flightsOf fd).length : Int)))
    ∧ (on_get_return_flights key selected fd payload status resp =
        .error .indexError ↔
      ¬(-((flightsOf fd).length : Int) ≤ selected
        ∧ selected < ((flightsOf fd).length : Int)))
    ∧ (∀ v, on_booking_options key selected fd payload = .ok v →
        -((flightsOf fd).length : Int) ≤ selected
        ∧ selected < ((flightsOf fd).length : Int))
    ∧ (∀ v, on_get_return_flights key selected fd payload status resp = .ok v →
        -((flightsOf fd).length : Int) ≤ selected
        ∧ selected < ((flightsOf fd).length : Int))
    ∧ (∀ f, pyGet (flightsOf fd) selected = some f → f.booking_token ≠ "" →
        key ≠ "" →
        on_booking_options key selected fd payload = .error .attributeError) := by
  have hbook : on_booking_options key selected fd payload = .error .indexError ↔
      ¬(-((flightsOf fd).length : Int) ≤ selected
        ∧ selected < ((flightsOf fd).length : Int)) := by
    rw [← pyGet_eq_none_iff (flightsOf fd) selected]
    cases hp : pyGet (flightsOf fd) selected with
    | none => simp [on_booking_options, hp]
    | some f =>
        by_cases hb : f.booking_token = ""
        · simp [on_booking_options, hp, hb]
        · by_cases hk : key = "" <;>
            simp [on_booking_options, get_booking_options_on_dict, hp, hb, hk]
  have hret : on_get_return_flights key selected fd payload status resp =
      .error .indexError ↔
      ¬(-((flightsOf fd).length : Int) ≤ selected
        ∧ selected < ((flightsOf fd).length : Int)) := by
    rw [← pyGet_eq_none_iff (flightsOf fd) selected]
    cases hp : pyGet (flightsOf fd) selected with
    | none => simp [on_get_return_flights, hp]
    | some f =>
        by_cases hd : f.departure_token = ""
        · simp [on_get_return_flights, hp, hd]
        · cases hf : (utils_fetch_flights key
              (dset payload.toDict "departure_token" (.s f.departure_token))
              status resp).1 with
          | error s => simp [on_get_return_flights, hp, hd, hf]
          | ok r => simp [on_get_return_flights, hp, hd, hf]
  refine ⟨hbook, hret, ?_, ?_, ?_⟩
  · intro v hv
    by_contra hnr
    rw [hbook.mpr hnr] at hv
    exact Except.noConfusion hv
  · intro v hv
    by_contra hnr
    rw [hret.mpr hnr] at hv
    exact Except.noConfusion hv
  · intro f hpf hb hk
    simp [on_booking_options, get_booking_options_on_dict, hpf, hb, hk]

/-- C10 (amended) witness: at a concrete in-range index the booking
handler fails with the uncaught `AttributeError`, and a concrete normal
return of the return-flights handler implies the index is inside the
Python-valid range. -/
theorem C10_amended_python_indexing_witness :
    on_booking_options "serp-key" 0 (some c10fd)
        ⟨"DEL", "BOM", "2025-06-01", 1, 0, "", ""⟩ = .error .attributeError
    ∧ (-((flightsOf (some c10fd)).length : Int) ≤ 0
        ∧ (0 : Int) < ((flightsOf (some c10fd)).length : Int)) :=
  ⟨(C10_amended_python_indexing "serp-key" 0 (some c10fd)
      ⟨"DEL", "BOM", "2025-06-01", 1, 0, "", ""⟩ 200
      (some ⟨["best_flights"]⟩)).2.2.2.2 c10flight rfl (by decide) (by decide),
   (C10_amended_python_indexing "serp-key" 0 (some c10fd)
      ⟨"DEL", "BOM", "2025-06-01", 1, 0, "", ""⟩ 200
      (some ⟨["best_flights"]⟩)).2.2.2.1 (.returnCards, .data ⟨["best_flights"]⟩) rfl⟩

end Travel
